import Mathlib

/-!
Verification of the resource-governance core of the `AI` inference-serving
repository, embedded shallowly from the Python sources under `src/ai_system/`.

Components modelled here:
* `ObjectPool` (`src/ai_system/object_pool.py`)
* `ThreadPool` task ordering and counters (`src/ai_system/thread_pool.py`)
* `MemoryMonitor` level classification and threshold updates
  (`src/ai_system/memory_monitor.py`)
* `GarbageCollectionMonitor` leak heuristic and shutdown
  (`src/ai_system/gc_monitor.py`)
* `MemoryAlertManager` cooldown routing (`src/ai_system/memory_alert_manager.py`)
* `MemoryManager.shutdown` orchestration (`src/ai_system/memory_manager.py`)

Machine floats in the source are embedded as `ℚ`; all comparisons relevant to
the claims are far from the rounding error of the corresponding IEEE values.
Python counters that the source may decrement are embedded as `ℤ` so that the
guards in the source, not the ambient type, are what keeps them non-negative.
-/

namespace AISystem

/-! ## Object pool (`src/ai_system/object_pool.py`)

Pooled objects are identified by natural-number ids; `next_id` stands for the
caller-supplied factory `create_object`, which hands out a fresh object each
time it is invoked.  The pool state carries the idle list `pool` (Python
`self._pool`) and the tracked checkout counter `in_use` (`self._in_use_count`).
`max_size` and `block` are configuration, passed as parameters. -/

structure PoolState where
  pool : List ℕ
  in_use : ℤ
  next_id : ℕ
  deriving Repr, DecidableEq

def initPool : PoolState := ⟨[], 0, 0⟩

/-- `ObjectPool.acquire` (object_pool.py lines 43-87).  The `while not
self._pool:` body either creates a tracked object (`in_use < max_size`),
creates an untracked burst object (non-blocking mode at capacity; the counter
is not incremented), or waits; a completed blocking wait re-runs the loop, so
as a state transformer a blocked/timed-out acquire leaves the state unchanged
and returns no object.  A non-empty idle list is popped from the end
(`self._pool.pop()`) and the counter incremented. -/
def acquire (max_size : ℕ) (block : Bool) (s : PoolState) : Option ℕ × PoolState :=
  if s.pool.isEmpty then
    if s.in_use < (max_size : ℤ) then
      (some s.next_id, { s with in_use := s.in_use + 1, next_id := s.next_id + 1 })
    else if !block then
      (some s.next_id, { s with next_id := s.next_id + 1 })
    else
      (none, s)
  else
    (s.pool.getLast?, { s with pool := s.pool.dropLast, in_use := s.in_use + 1 })

/-- `ObjectPool.release` (object_pool.py lines 89-121).  If a reset hook is
configured and it raises, the object is discarded and the counter decremented
only when positive.  Otherwise, when `in_use > 0` the counter is decremented
and the object appended to the idle list; when the counter is zero the object
is discarded with a warning.  `reset_raises` models whether the configured
reset hook raises on this object. -/
def release (has_reset reset_raises : Bool) (obj : ℕ) (s : PoolState) : PoolState :=
  if has_reset && reset_raises then
    if 0 < s.in_use then { s with in_use := s.in_use - 1 } else s
  else
    if 0 < s.in_use then
      { s with in_use := s.in_use - 1, pool := s.pool ++ [obj] }
    else
      s

/-- `ObjectPool.clear` (object_pool.py lines 131-135): drop the idle list and
reset the counter to exactly 0. -/
def clear (s : PoolState) : PoolState := { s with pool := [], in_use := 0 }

/-- One pool operation: an acquire call, a release call (of any object, with
the reset hook either absent, succeeding, or raising), or a clear. -/
inductive PoolOp where
  | acq : PoolOp
  | rel (has_reset reset_raises : Bool) (obj : ℕ) : PoolOp
  | clr : PoolOp
  deriving Repr, DecidableEq

def applyOp (max_size : ℕ) (block : Bool) (s : PoolState) (op : PoolOp) : PoolState :=
  match op with
  | .acq => (acquire max_size block s).2
  | .rel h f o => release h f o s
  | .clr => clear s

def runOps (max_size : ℕ) (block : Bool) (ops : List PoolOp) : PoolState :=
  ops.foldl (applyOp max_size block) initPool

lemma applyOp_sum_le (max_size : ℕ) (block : Bool) (s : PoolState) (op : PoolOp)
    (h : (s.pool.length : ℤ) + s.in_use ≤ (max_size : ℤ)) :
    ((applyOp max_size block s op).pool.length : ℤ) + (applyOp max_size block s op).in_use
      ≤ (max_size : ℤ) := by
  obtain ⟨p, u, n⟩ := s
  simp only at h
  cases op with
  | acq =>
    simp only [applyOp, acquire]
    cases p with
    | nil =>
      simp only [List.isEmpty_nil, if_true, List.length_nil] at h ⊢
      by_cases hin : u < (max_size : ℤ)
      · simp only [hin, if_true]
        simp only [List.length_nil]
        omega
      · simp only [hin, if_false]
        cases block <;> simp_all
    | cons a l =>
      simp only [List.isEmpty_cons, Bool.false_eq_true, if_false, List.length_cons] at h ⊢
      simp only [List.dropLast_cons_of_ne_nil, List.length_dropLast, List.length_cons]
      push_cast at h ⊢
      have : ((a :: l).dropLast.length : ℤ) ≤ (l.length : ℤ) := by
        have := List.length_dropLast (a :: l)
        simp only [List.length_cons] at this
        omega
      omega
  | rel hr f o =>
    simp only [applyOp, release]
    by_cases hrf : (hr && f) = true
    · simp only [hrf, if_true]
      by_cases hin : 0 < u
      · simp only [hin, if_true]; omega
      · simp only [hin, if_false]; exact h
    · simp only [hrf, Bool.false_eq_true, if_false]
      by_cases hin : 0 < u
      · simp only [hin, if_true, List.length_append, List.length_cons, List.length_nil]
        push_cast
        omega
      · simp only [hin, if_false]; exact h
  | clr =>
    simp only [applyOp, clear, List.length_nil]
    omega

lemma applyOp_in_use_nonneg (max_size : ℕ) (block : Bool) (s : PoolState) (op : PoolOp)
    (h : 0 ≤ s.in_use) : 0 ≤ (applyOp max_size block s op).in_use := by
  obtain ⟨p, u, n⟩ := s
  simp only at h
  cases op with
  | acq =>
    simp only [applyOp, acquire]
    cases p with
    | nil =>
      simp only [List.isEmpty_nil, if_true]
      by_cases hin : u < (max_size : ℤ)
      · simp only [hin, if_true]; omega
      · simp only [hin, if_false]
        cases block <;> simp_all
    | cons a l =>
      simp only [List.isEmpty_cons, Bool.false_eq_true, if_false]
      omega
  | rel hr f o =>
    simp only [applyOp, release]
    by_cases hrf : (hr && f) = true
    · simp only [hrf, if_true]
      by_cases hin : 0 < u
      · simp only [hin, if_true]; omega
      · simp only [hin, if_false]; exact h
    · simp only [hrf, Bool.false_eq_true, if_false]
      by_cases hin : 0 < u
      · simp only [hin, if_true]; omega
      · simp only [hin, if_false]; exact h
  | clr =>
    simp only [applyOp, clear]
    omega

lemma runOps_aux (max_size : ℕ) (block : Bool) (ops : List PoolOp) (s : PoolState)
    (h1 : (s.pool.length : ℤ) + s.in_use ≤ (max_size : ℤ)) (h2 : 0 ≤ s.in_use) :
    ((ops.foldl (applyOp max_size block) s).pool.length : ℤ)
        + (ops.foldl (applyOp max_size block) s).in_use ≤ (max_size : ℤ)
      ∧ 0 ≤ (ops.foldl (applyOp max_size block) s).in_use := by
  induction ops generalizing s with
  | nil => exact ⟨h1, h2⟩
  | cons op rest ih =>
    exact ih (applyOp max_size block s op)
      (applyOp_sum_le max_size block s op h1)
      (applyOp_in_use_nonneg max_size block s op h2)

/-- C4: For every sequence of acquire and release (and clear) operations on a
blocking pool with `max_size = N`, the tracked-instance invariant
`idle_count + in_use_count ≤ N` holds at every point (every reachable state is
the final state of some sequence), and in particular `in_use_count ≤ N`. -/
theorem pool_bounded_invariant (N : ℕ) (ops : List PoolOp) :
    ((runOps N true ops).pool.length : ℤ) + (runOps N true ops).in_use ≤ (N : ℤ)
      ∧ (runOps N true ops).in_use ≤ (N : ℤ) := by
  have h := runOps_aux N true ops initPool (by simp [initPool]) (by simp [initPool])
  refine ⟨h.1, ?_⟩
  have hlen : (0 : ℤ) ≤ ((runOps N true ops).pool.length : ℤ) := by positivity
  have := h.1
  unfold runOps at *
  omega

/-- C10: The pool's `in_use_count` is never negative: for every sequence of
acquire, release (including releases of foreign objects and releases whose
reset hook raises) and clear operations, in either blocking mode,
`in_use_count ≥ 0` holds at every reachable state. -/
theorem pool_in_use_nonneg (N : ℕ) (block : Bool) (ops : List PoolOp) :
    0 ≤ (runOps N block ops).in_use :=
  (runOps_aux N block ops initPool (by simp [initPool]) (by simp [initPool])).2

/-- C3 counterexample: on a non-blocking pool with `max_size = 1`, acquire a
tracked object (id 0), then a burst object (id 1, counter untouched); while
the tracked object is still checked out (`in_use_count = 1`), releasing the
burst object decrements `in_use_count` below its pre-release value (1 → 0)
and appends the burst object to the idle list.  This refutes the claim for
release states with `in_use_count > 0`. -/
theorem burst_release_counterexample :
    acquire 1 false initPool = (some 0, ⟨[], 1, 1⟩)
      ∧ acquire 1 false ⟨[], 1, 1⟩ = (some 1, ⟨[], 1, 2⟩)
      ∧ (release false false 1 ⟨[], 1, 2⟩).in_use = 0
      ∧ (release false false 1 ⟨[], 1, 2⟩).pool = [1] := by
  refine ⟨?_, ?_, ?_, ?_⟩ <;> decide

/-- C3 amended: releasing a burst object is discarded (no counter change, not
appended to the idle list) exactly when `in_use_count = 0` at release time;
when `in_use_count > 0` at release time the pool cannot distinguish a burst
object from a tracked one, so release decrements the counter and appends the
object to the idle list. -/
theorem burst_release_amended (s : PoolState) (obj : ℕ) :
    (s.in_use ≤ 0 → release false false obj s = s)
      ∧ (0 < s.in_use →
          (release false false obj s).in_use = s.in_use - 1
            ∧ (release false false obj s).pool = s.pool ++ [obj]) := by
  constructor
  · intro h
    simp only [release, Bool.and_self, Bool.false_and]
    have : ¬ 0 < s.in_use := by omega
    simp [this]
  · intro h
    simp [release, h]

/-- Witness for `burst_release_amended` at the concrete state of the
counterexample: one tracked checkout outstanding, burst object 1 released. -/
theorem burst_release_amended_witness :
    (release false false 1 ⟨[], 1, 2⟩).in_use = (1 : ℤ) - 1
      ∧ (release false false 1 ⟨[], 1, 2⟩).pool = [] ++ [1] :=
  (burst_release_amended ⟨[], 1, 2⟩ 1).2 (by decide)

/-! ## Priority task scheduler (`src/ai_system/thread_pool.py`)

`TaskPriority` values (thread_pool.py lines 12-17): LOW = 0, MEDIUM = 1,
HIGH = 2, CRITICAL = 3.  A task carries its priority value and its
`created_at` submission time (embedded as ℕ; only its order matters). -/

def LOW : ℕ := 0
def MEDIUM : ℕ := 1
def HIGH : ℕ := 2
def CRITICAL : ℕ := 3

structure Task where
  priority : ℕ
  created_at : ℕ
  deriving Repr, DecidableEq

/-- `Task.__lt__` (thread_pool.py lines 31-36): equal priorities compare by
arrival time (FIFO), otherwise a task with the *larger* priority value is
"less", so the min-ordered `queue.PriorityQueue` drains high priority first. -/
def taskLt (a b : Task) : Bool :=
  if a.priority = b.priority then decide (a.created_at < b.created_at)
  else decide (b.priority < a.priority)

/-- Leftmost minimal task under `taskLt`, as extracted by the priority queue. -/
def pickMin (t : Task) (ts : List Task) : Task :=
  ts.foldl (fun m x => if taskLt x m then x else m) t

def removeOne (t : Task) : List Task → List Task
  | [] => []
  | x :: xs => if x = t then xs else x :: removeOne t xs

def drainFuel : ℕ → List Task → List Task
  | 0, _ => []
  | _ + 1, [] => []
  | fuel + 1, t :: ts =>
    let m := pickMin t ts
    m :: drainFuel fuel (removeOne m (t :: ts))

/-- The dispatcher loop (`ThreadPool._dispatch_tasks`, thread_pool.py lines
85-104) repeatedly takes the queue minimum under `Task.__lt__`; with a single
gated worker the execution order is the drain order of the queue. -/
def drain (q : List Task) : List Task := drainFuel q.length q

/-- Priorities [LOW, HIGH, LOW, CRITICAL, MEDIUM] submitted in that order at
strictly increasing times 0..4. -/
def exampleSubmission : List Task :=
  [⟨LOW, 0⟩, ⟨HIGH, 1⟩, ⟨LOW, 2⟩, ⟨CRITICAL, 3⟩, ⟨MEDIUM, 4⟩]

def expectedExecution : List Task :=
  [⟨CRITICAL, 3⟩, ⟨HIGH, 1⟩, ⟨MEDIUM, 4⟩, ⟨LOW, 0⟩, ⟨LOW, 2⟩]

/-- C5: any element the priority queue can pop (an `m` with no queued `x`
satisfying `x < m` under `Task.__lt__`) is a highest-priority task, and among
equal priorities has the earliest submission time; and the example queue
[LOW, HIGH, LOW, CRITICAL, MEDIUM] drains as [CRITICAL, HIGH, MEDIUM, LOW,
LOW] with the two LOWs in submission order. -/
theorem scheduler_priority_order :
    (∀ (q : List Task) (m : Task), m ∈ q → (∀ x ∈ q, taskLt x m = false) →
        ∀ x ∈ q, x.priority ≤ m.priority
          ∧ (x.priority = m.priority → m.created_at ≤ x.created_at))
      ∧ drain exampleSubmission = expectedExecution := by
  constructor
  · intro q m _ hmin x hx
    have h := hmin x hx
    by_cases hp : x.priority = m.priority
    · simp only [taskLt, hp, if_true, decide_eq_false_iff_not, not_lt] at h
      exact ⟨le_of_eq hp, fun _ => h⟩
    · simp only [taskLt, hp, if_false, decide_eq_false_iff_not, not_lt] at h
      exact ⟨h, fun heq => absurd heq hp⟩
  · decide

/-- Witness for `scheduler_priority_order`: the CRITICAL task of the example
queue is poppable and dominates the first LOW task. -/
theorem scheduler_priority_order_witness :
    (Task.mk LOW 0).priority ≤ (Task.mk CRITICAL 3).priority
      ∧ ((Task.mk LOW 0).priority = (Task.mk CRITICAL 3).priority →
          (Task.mk CRITICAL 3).created_at ≤ (Task.mk LOW 0).created_at) :=
  scheduler_priority_order.1 exampleSubmission (Task.mk CRITICAL 3)
    (by decide) (by decide) (Task.mk LOW 0) (by decide)

/-! ## Scheduler statistics counters (`src/ai_system/thread_pool.py`) -/

structure SchedStats where
  total : ℤ
  completed : ℤ
  failed : ℤ
  active : ℤ
  deriving Repr, DecidableEq

def initStats : SchedStats := ⟨0, 0, 0, 0⟩

/-- Outcome of a task payload: it returns normally or raises. -/
inductive Outcome where
  | ok : Outcome
  | err : Outcome
  deriving Repr, DecidableEq

/-- `ThreadPool.submit` counter effect (thread_pool.py line 186):
`total_tasks += 1`. -/
def submitOne (s : SchedStats) : SchedStats := { s with total := s.total + 1 }

/-- Hand-off in `ThreadPool._dispatch_tasks` (thread_pool.py lines 94-95):
`active_tasks += 1` before submitting the task to the executor. -/
def dispatchOne (s : SchedStats) : SchedStats := { s with active := s.active + 1 }

/-- `ThreadPool._execute_task` counter effects (thread_pool.py lines 106-139):
on a normal return `completed_tasks += 1`, on an exception `failed_tasks += 1`,
and in the `finally` block — executed on both paths — `active_tasks -= 1`. -/
def executeTask (o : Outcome) (s : SchedStats) : SchedStats :=
  let s1 := match o with
    | .ok => { s with completed := s.completed + 1 }
    | .err => { s with failed := s.failed + 1 }
  { s1 with active := s1.active - 1 }

/-- Full counter path of one task: submit, dispatch, execute. -/
def processTask (s : SchedStats) (o : Outcome) : SchedStats :=
  executeTask o (dispatchOne (submitOne s))

def runTasks (outcomes : List Outcome) (s : SchedStats) : SchedStats :=
  outcomes.foldl processTask s

lemma runTasks_counts (outcomes : List Outcome) (s : SchedStats) :
    (runTasks outcomes s).active = s.active
      ∧ (runTasks outcomes s).completed + (runTasks outcomes s).failed
          = s.completed + s.failed + outcomes.length := by
  induction outcomes generalizing s with
  | nil => simp [runTasks]
  | cons o rest ih =>
    have hstep := ih (processTask s o)
    have ht1 : (processTask s o).active = s.active := by
      cases o <;> simp only [processTask, executeTask, dispatchOne, submitOne] <;> omega
    have ht2 : (processTask s o).completed + (processTask s o).failed
        = s.completed + s.failed + 1 := by
      cases o <;> simp only [processTask, executeTask, dispatchOne, submitOne] <;> omega
    simp only [runTasks, List.foldl_cons, List.length_cons] at hstep ⊢
    push_cast
    constructor <;> omega

/-- C8: `active_tasks` is incremented exactly once per task at hand-off and
decremented exactly once per task whether the payload returns or raises, so
it returns to 0 after any finite mix of succeeding and raising tasks; in
addition every completed task is counted exactly once as completed or
failed. -/
theorem active_tasks_balanced :
    (∀ s : SchedStats, (dispatchOne s).active = s.active + 1)
      ∧ (∀ (o : Outcome) (s : SchedStats), (executeTask o s).active = s.active - 1)
      ∧ ∀ outcomes : List Outcome,
          (runTasks outcomes initStats).active = 0
            ∧ (runTasks outcomes initStats).completed + (runTasks outcomes initStats).failed
                = outcomes.length := by
  refine ⟨fun s => rfl, fun o s => by cases o <;> rfl, fun outcomes => ?_⟩
  have h := runTasks_counts outcomes initStats
  simp only [initStats] at h ⊢
  exact ⟨h.1, by omega⟩

/-! ## Memory monitor (`src/ai_system/memory_monitor.py`) -/

inductive MemoryAlertLevel where
  | NORMAL : MemoryAlertLevel
  | WARNING : MemoryAlertLevel
  | CRITICAL : MemoryAlertLevel
  deriving Repr, DecidableEq

/-- `MemoryMonitor._check_alert_level` (memory_monitor.py lines 188-203):
`percent >= critical_threshold → CRITICAL`, elif `percent >=
warning_threshold → WARNING`, else `NORMAL`. -/
def check_alert_level (warning_threshold critical_threshold percent : ℚ) :
    MemoryAlertLevel :=
  if critical_threshold ≤ percent then .CRITICAL
  else if warning_threshold ≤ percent then .WARNING
  else .NORMAL

/-- C9: the classifier returns CRITICAL iff `percent ≥ critical_threshold`,
WARNING iff `warning_threshold ≤ percent < critical_threshold`, NORMAL
otherwise (iff `percent < warning_threshold` and `percent <
critical_threshold`); with thresholds (70, 85), percents 69.9 / 70 / 84.9 /
85 classify as NORMAL / WARNING / WARNING / CRITICAL. -/
theorem check_alert_level_spec :
    (∀ w c p : ℚ,
        (check_alert_level w c p = .CRITICAL ↔ c ≤ p)
          ∧ (check_alert_level w c p = .WARNING ↔ w ≤ p ∧ p < c)
          ∧ (check_alert_level w c p = .NORMAL ↔ p < w ∧ p < c))
      ∧ check_alert_level 70 85 (699/10) = .NORMAL
      ∧ check_alert_level 70 85 70 = .WARNING
      ∧ check_alert_level 70 85 (849/10) = .WARNING
      ∧ check_alert_level 70 85 85 = .CRITICAL := by
  refine ⟨fun w c p => ?_, by norm_num [check_alert_level],
    by norm_num [check_alert_level], by norm_num [check_alert_level],
    by norm_num [check_alert_level]⟩
  unfold check_alert_level
  by_cases hc : c ≤ p
  · rw [if_pos hc]
    exact ⟨⟨fun _ => hc, fun _ => rfl⟩,
      ⟨fun h => by simp at h, fun h => absurd hc (not_le.mpr h.2)⟩,
      ⟨fun h => by simp at h, fun h => absurd hc (not_le.mpr h.2)⟩⟩
  · rw [if_neg hc]
    by_cases hw : w ≤ p
    · rw [if_pos hw]
      exact ⟨⟨fun h => by simp at h, fun h => absurd h hc⟩,
        ⟨fun _ => ⟨hw, lt_of_not_le hc⟩, fun _ => rfl⟩,
        ⟨fun h => by simp at h, fun h => absurd hw (not_le.mpr h.1)⟩⟩
    · rw [if_neg hw]
      exact ⟨⟨fun h => by simp at h, fun h => absurd h hc⟩,
        ⟨fun h => by simp at h, fun h => absurd h.1 hw⟩,
        ⟨fun _ => ⟨lt_of_not_le hw, lt_of_not_le hc⟩, fun _ => rfl⟩⟩

/-- The two mutable thresholds of `MemoryMonitor`. -/
structure MonitorThresholds where
  warning : ℚ
  critical : ℚ
  deriving Repr, DecidableEq

/-- `MemoryMonitor.set_thresholds` (memory_monitor.py lines 372-398).  Python
objects are not rolled back when an exception propagates, so the embedding
returns the state as it is at the moment the call returns or raises, together
with the raised error (if any): first the warning argument is range-checked
and, if valid, assigned; then the critical argument is range-checked and, if
valid, assigned; last, `critical <= warning` on the (already updated) fields
raises. -/
def set_thresholds (w c : Option ℚ) (s : MonitorThresholds) :
    MonitorThresholds × Option String :=
  let step1 : MonitorThresholds × Option String :=
    match w with
    | none => (s, none)
    | some wv =>
      if 0 ≤ wv ∧ wv ≤ 100 then ({ s with warning := wv }, none)
      else (s, some "ValueError: Warning threshold must be between 0 and 100")
  match step1 with
  | (s1, some e) => (s1, some e)
  | (s1, none) =>
    let step2 : MonitorThresholds × Option String :=
      match c with
      | none => (s1, none)
      | some cv =>
        if 0 ≤ cv ∧ cv ≤ 100 then ({ s1 with critical := cv }, none)
        else (s1, some "ValueError: Critical threshold must be between 0 and 100")
    match step2 with
    | (s2, some e) => (s2, some e)
    | (s2, none) =>
      if s2.critical ≤ s2.warning then
        (s2, some "ValueError: Critical threshold must be higher than warning threshold")
      else (s2, none)

/-- C1 counterexample: from thresholds (70, 85), `set_thresholds(60, 50)`
raises, but the monitor is left with warning = 60, critical = 50 — not with
the prior thresholds, refuting the no-mutation part of the claim. -/
theorem set_thresholds_counterexample :
    (set_thresholds (some 60) (some 50) ⟨70, 85⟩).2.isSome = true
      ∧ (set_thresholds (some 60) (some 50) ⟨70, 85⟩).1 ≠ (⟨70, 85⟩ : MonitorThresholds)
      ∧ (set_thresholds (some 60) (some 50) ⟨70, 85⟩).1 = (⟨60, 50⟩ : MonitorThresholds) := by
  refine ⟨?_, ?_, ?_⟩ <;> norm_num [set_thresholds]

/-- C1 amended: a call that fails validation raises an error, but the
thresholds are not rolled back: an argument that fails its own [0,100] range
check is never assigned (and aborts the call with the state as mutated so
far), while arguments that passed their range check have already been
assigned; in particular `set_thresholds(60, 50)` raises the
critical-not-above-warning error and leaves warning = 60 and critical = 50. -/
theorem set_thresholds_amended (s : MonitorThresholds) (wv : ℚ) (c : Option ℚ) :
    set_thresholds (some 60) (some 50) s
        = (⟨60, 50⟩,
            some "ValueError: Critical threshold must be higher than warning threshold")
      ∧ (¬ (0 ≤ wv ∧ wv ≤ 100) →
          set_thresholds (some wv) c s
            = (s, some "ValueError: Warning threshold must be between 0 and 100")) := by
  constructor
  · simp only [set_thresholds]
    norm_num
  · intro h
    simp only [set_thresholds, h, if_false]

/-- Witness for `set_thresholds_amended` at thresholds (70, 85) with the
out-of-range warning argument 150. -/
theorem set_thresholds_amended_witness :
    set_thresholds (some 60) (some 50) ⟨70, 85⟩
        = (⟨60, 50⟩,
            some "ValueError: Critical threshold must be higher than warning threshold")
      ∧ set_thresholds (some 150) (some 50) ⟨70, 85⟩
          = (⟨70, 85⟩, some "ValueError: Warning threshold must be between 0 and 100") :=
  ⟨(set_thresholds_amended ⟨70, 85⟩ 150 (some 50)).1,
    (set_thresholds_amended ⟨70, 85⟩ 150 (some 50)).2 (by norm_num)⟩

/-! ## Alert router (`src/ai_system/memory_alert_manager.py`)

One alert level is modelled; the last-dispatch timestamp (`_last_alert_times[
alert_level]`) is shared by all of the level's rules.  Channel actions are
embedded as pure dispatches identified by the rule's channel id (delivery
failures, which skip the timestamp update, are not needed by the claim). -/

structure AlertRule where
  enabled : Bool
  cooldown_period : ℚ
  channel : ℕ
  deriving Repr, DecidableEq

/-- `MemoryAlertManager._handle_alert` (memory_alert_manager.py lines
170-213) for a single level: `last_alert_time` is read once before the rule
loop; each enabled rule whose cooldown has elapsed relative to that pre-read
time dispatches and sets the stored timestamp to `current_time`.  Returns the
dispatched channel ids in rule order and the stored timestamp after the
call. -/
def handle_alert (rules : List AlertRule) (last_alert_time current_time : ℚ) :
    List ℕ × ℚ :=
  rules.foldl
    (fun acc config =>
      if config.enabled then
        if current_time - last_alert_time < config.cooldown_period then acc
        else (acc.1 ++ [config.channel], current_time)
      else acc)
    ([], last_alert_time)

lemma handle_alert_aux (rules : List AlertRule) (last now : ℚ)
    (h : ∀ r ∈ rules, r.enabled = true → now - last < r.cooldown_period)
    (acc : List ℕ × ℚ) :
    rules.foldl
      (fun a config =>
        if config.enabled then
          if now - last < config.cooldown_period then a
          else (a.1 ++ [config.channel], now)
        else a)
      acc = acc := by
  induction rules generalizing acc with
  | nil => rfl
  | cons r rest ih =>
    simp only [List.foldl_cons]
    have hrec := ih (fun x hx => h x (List.mem_cons_of_mem r hx))
    by_cases he : r.enabled = true
    · have hcd := h r (List.mem_cons_self r rest) he
      rw [if_pos he, if_pos hcd]
      exact hrec acc
    · rw [if_neg he]
      exact hrec acc

/-- C7: a second alert delivery for a level within every enabled rule's
cooldown of the stored last-dispatch time dispatches to no channel of the
level and leaves the shared timestamp unchanged; a single-rule level whose
cooldown has elapsed dispatches that rule and stamps `now`; concretely, with
cooldown 300s and the level previously never fired, alerts at t = 1000 and
t = 1001 (1s apart) produce exactly one dispatch between them, and a third
alert at t = 1301 (301s after the dispatch) dispatches again. -/
theorem alert_cooldown_spec :
    (∀ (rules : List AlertRule) (last now : ℚ),
        (∀ r ∈ rules, r.enabled = true → now - last < r.cooldown_period) →
        handle_alert rules last now = ([], last))
      ∧ (∀ (cd now last : ℚ) (ch : ℕ), cd ≤ now - last →
          handle_alert [⟨true, cd, ch⟩] last now = ([ch], now))
      ∧ handle_alert [⟨true, 300, 0⟩] 0 1000 = ([0], 1000)
      ∧ handle_alert [⟨true, 300, 0⟩] 1000 1001 = ([], 1000)
      ∧ handle_alert [⟨true, 300, 0⟩] 1000 1301 = ([0], 1301) := by
  refine ⟨fun rules last now h => handle_alert_aux rules last now h ([], last),
    fun cd now last ch h => ?_, by norm_num [handle_alert],
    by norm_num [handle_alert], by norm_num [handle_alert]⟩
  simp only [handle_alert, List.foldl_cons, List.foldl_nil, if_true]
  rw [if_neg (not_lt.mpr h)]
  simp

/-- Witness for `alert_cooldown_spec`: the suppression branch at the concrete
second alert (1s after a dispatch, cooldown 300) and the dispatch branch at
the concrete third alert. -/
theorem alert_cooldown_spec_witness :
    handle_alert [⟨true, 300, 0⟩] 1000 1001 = ([], 1000)
      ∧ handle_alert [⟨true, 300, 0⟩] 1000 1301 = ([0], 1301) :=
  ⟨alert_cooldown_spec.1 [⟨true, 300, 0⟩] 1000 1001
      (by intro r hr _; simp only [List.mem_singleton] at hr; subst hr; norm_num),
    alert_cooldown_spec.2.1 300 1301 1000 0 (by norm_num)⟩

/-! ## Leak heuristic (`src/ai_system/gc_monitor.py`)

A heap snapshot is reduced to the fields that `detect_memory_leaks` and
`compare_snapshots` read for the claim: `timestamp` and `total_size`.  The
allocation-site diff lists of `compare_snapshots` are omitted from the leak
record; the numeric fields are embedded in full. -/

structure Snap where
  timestamp : ℚ
  total_size : ℚ
  deriving Repr, DecidableEq

def dummySnap : Snap := ⟨0, 0⟩

structure Leak where
  start_time : ℚ
  end_time : ℚ
  start_size : ℚ
  end_size : ℚ
  growth_rate : ℚ
  size_diff : ℚ
  deriving Repr, DecidableEq

/-- The inner consistency loop of `detect_memory_leaks` (gc_monitor.py lines
472-481): for `j in range(2, len(recent))` with `i - j >= 0` and a positive
earlier size, require `curr.total_size / earlier.total_size >
growth_threshold`; the Python `break` on the first failure is
observationally the same as this all-quantified check. -/
def consistent_growth (recent : List Snap) (growth_threshold : ℚ) (i : ℕ) : Bool :=
  (List.range' 2 (recent.length - 2)).all fun j =>
    if j ≤ i then
      let earlier := recent.getD (i - j) dummySnap
      if 0 < earlier.total_size then
        decide (growth_threshold < (recent.getD i dummySnap).total_size / earlier.total_size)
      else true
    else true

/-- `GarbageCollectionMonitor.detect_memory_leaks` (gc_monitor.py lines
439-502).  With fewer than `min_snapshots` snapshots the result is empty;
otherwise the last `min_snapshots` snapshots are scanned (`[-0:]` is the
whole list), and for each adjacent index pair (i-1, i) whose growth rate
exceeds the threshold and passes the consistency check, one leak record is
appended, with `size_diff` taken from `compare_snapshots`. -/
def detect_memory_leaks (snapshots : List Snap) (min_snapshots : ℕ)
    (growth_threshold : ℚ) : List Leak :=
  if snapshots.length < min_snapshots then []
  else
    let recent := if min_snapshots = 0 then snapshots
      else snapshots.drop (snapshots.length - min_snapshots)
    (List.range' 1 (recent.length - 1)).filterMap fun i =>
      let prev := recent.getD (i - 1) dummySnap
      let curr := recent.getD i dummySnap
      if 0 < prev.total_size then
        let growth_rate := curr.total_size / prev.total_size
        if growth_threshold < growth_rate then
          if consistent_growth recent growth_threshold i then
            some ⟨prev.timestamp, curr.timestamp, prev.total_size, curr.total_size,
              growth_rate, curr.total_size - prev.total_size⟩
          else none
        else none
      else none

/-- Snapshot sizes [100, 100, 100] at times 0, 1, 2. -/
def flatSnaps : List Snap := [⟨0, 100⟩, ⟨1, 100⟩, ⟨2, 100⟩]

/-- Snapshot sizes [100, 115, 135] at times 0, 1, 2. -/
def growSnaps : List Snap := [⟨0, 100⟩, ⟨1, 115⟩, ⟨2, 135⟩]

/-- C6 counterexample: on sizes [100, 115, 135] with `min_snapshots = 3` and
`growth_threshold = 1.1`, `detect_memory_leaks` reports two candidates (one
per adjacent growing pair), not exactly one spanning all three snapshots. -/
theorem detect_leaks_counterexample :
    (detect_memory_leaks growSnaps 3 (11/10)).length = 2
      ∧ (detect_memory_leaks growSnaps 3 (11/10)).length ≠ 1 := by
  constructor <;>
    norm_num [detect_memory_leaks, consistent_growth, growSnaps, dummySnap,
      List.range', List.getD, List.filterMap_cons, List.filterMap_nil]

/-- C6 amended: on sizes [100, 100, 100] (`min_snapshots = 3`,
`growth_threshold = 1.1`) no leak is reported; on sizes [100, 115, 135] with
the same parameters exactly two leak candidates are reported, one per
adjacent growing pair — (100 → 115, rate 23/20) and (115 → 135, rate 27/23)
— each adjacent growth confirmed against every earlier snapshot in the
window. -/
theorem detect_leaks_amended :
    detect_memory_leaks flatSnaps 3 (11/10) = []
      ∧ detect_memory_leaks growSnaps 3 (11/10)
          = [⟨0, 1, 100, 115, 23/20, 15⟩, ⟨1, 2, 115, 135, 27/23, 20⟩] := by
  constructor <;>
    norm_num [detect_memory_leaks, consistent_growth, flatSnaps, growSnaps, dummySnap,
      List.range', List.getD, List.filterMap_cons, List.filterMap_nil]

/-! ## GC monitor shutdown (`src/ai_system/gc_monitor.py`, `memory_manager.py`)

`GarbageCollectionMonitor` defines a method `_stop_snapshot_thread` (lines
106-117) but its `__init__` also assigns `self._stop_snapshot_thread = False`
(line 60, again at line 101 in `_start_snapshot_thread`).  Python instance
attributes shadow class methods of the same name, so the attribute the
instance actually holds under that name is a `bool`.  The embedding keeps the
value stored under the name and models a Python call through it: calling a
bool raises `TypeError`. -/

inductive PyAttr where
  /-- A plain `bool` instance attribute: not callable. -/
  | boolVal (b : Bool) : PyAttr
  /-- The class-level bound method: callable. -/
  | boundMethod : PyAttr
  deriving Repr, DecidableEq

structure GCMonitorObj where
  /-- The value found under the name `_stop_snapshot_thread` on the instance. -/
  stop_attr : PyAttr
  enable_tracemalloc : Bool
  enable_gc_callbacks : Bool
  gc_callbacks_registered : Bool
  tracemalloc_running : Bool
  snapshot_thread_running : Bool
  deriving Repr, DecidableEq

/-- `GarbageCollectionMonitor.__init__` (gc_monitor.py lines 30-90): line 60
stores `False` under the name `_stop_snapshot_thread`, shadowing the method;
it starts tracemalloc and registers the GC callbacks when enabled, and starts
the snapshot thread (line 101 stores `False` under the same name again). -/
def gcMonitorInit (enable_tracemalloc enable_gc_callbacks : Bool) : GCMonitorObj :=
  { stop_attr := .boolVal false
    enable_tracemalloc := enable_tracemalloc
    enable_gc_callbacks := enable_gc_callbacks
    gc_callbacks_registered := enable_gc_callbacks
    tracemalloc_running := enable_tracemalloc
    snapshot_thread_running := true }

/-- The call `self._stop_snapshot_thread()` in `shutdown` (gc_monitor.py line
546): attribute lookup finds the instance attribute first; calling the method
would stop the snapshot thread, calling a bool raises `TypeError`. -/
def callStopSnapshotThread (s : GCMonitorObj) : Except String GCMonitorObj :=
  match s.stop_attr with
  | .boundMethod => .ok { s with snapshot_thread_running := false, stop_attr := .boolVal true }
  | .boolVal _ => .error "TypeError: bool object is not callable"

/-- `GarbageCollectionMonitor.shutdown` (gc_monitor.py lines 541-556): call
`self._stop_snapshot_thread()`, then unregister GC callbacks when enabled,
then stop tracemalloc when enabled. -/
def gcShutdown (s : GCMonitorObj) : Except String GCMonitorObj := do
  let s ← callStopSnapshotThread s
  let s := if s.enable_gc_callbacks then { s with gc_callbacks_registered := false } else s
  let s := if s.enable_tracemalloc then { s with tracemalloc_running := false } else s
  return s

structure ManagerState where
  monitor_running : Bool
  logger_running : Bool
  gc : GCMonitorObj
  deriving Repr, DecidableEq

/-- A freshly constructed `MemoryManager` with default configuration:
sampler and logger started, GC monitor constructed with tracemalloc enabled
and its default-enabled GC callbacks. -/
def managerInit : ManagerState := ⟨true, true, gcMonitorInit true true⟩

def memoryMonitorStop (s : ManagerState) : ManagerState := { s with monitor_running := false }

def memoryLoggerStop (s : ManagerState) : ManagerState := { s with logger_running := false }

/-- `MemoryManager.shutdown` (memory_manager.py lines 389-400): stop the
memory monitor, stop the memory logger, then shut the GC monitor down; an
exception from the latter propagates to the caller. -/
def managerShutdown (s : ManagerState) : Except String ManagerState := do
  let s := memoryMonitorStop s
  let s := memoryLoggerStop s
  let g ← gcShutdown s.gc
  return { s with gc := g }

/-- C2 (code bug): for every configuration, the very first call to
`GarbageCollectionMonitor.shutdown` raises `TypeError` — the instance
attribute `_stop_snapshot_thread = False` set in `__init__` shadows the
method of the same name, so `self._stop_snapshot_thread()` calls a bool —
and `MemoryManager.shutdown` on a fresh manager propagates the same error
instead of completing normally. -/
theorem gc_shutdown_raises :
    (∀ et eg : Bool,
        gcShutdown (gcMonitorInit et eg)
          = .error "TypeError: bool object is not callable")
      ∧ managerShutdown managerInit
          = .error "TypeError: bool object is not callable" :=
  ⟨fun _ _ => rfl, rfl⟩

end AISystem
